import Mathlib

/-!
# Minerva — frame lifecycle and synchronization engine: a shallow embedding

This file embeds the core of the Minerva Vulkan bootstrap engine
(`vk_engine.h` / the engine translation unit, and `vk_images.h` / the image
transition translation unit) as executable Lean definitions, and proves the
specification's claims about it.

Modelling conventions:
* Vulkan handles (devices, semaphores, fences, images, ...) are opaque `Nat`
  identifiers; the engine state mirrors the `VulkanEngine` data members.
* Vulkan API calls made by the engine are reified as a trace
  (`List VkCall`): each engine operation returns the ordered list of calls it
  performs, together with the updated engine state.
* Fallible indexing (C++ undefined behaviour on modulo-by-zero /
  out-of-bounds) is modelled with `Option`.
* External interaction (which image index the presentation engine returns at
  acquire time, which SDL events are polled) is passed in as explicit oracle
  arguments.
-/

namespace Minerva

/-! ## Vulkan API constants (values from vulkan_core.h) -/

def VK_IMAGE_LAYOUT_UNDEFINED : Nat := 0

def VK_IMAGE_LAYOUT_GENERAL : Nat := 1

def VK_IMAGE_LAYOUT_DEPTH_ATTACHMENT_OPTIMAL : Nat := 1000241000

def VK_IMAGE_LAYOUT_PRESENT_SRC_KHR : Nat := 1000001002

def VK_IMAGE_ASPECT_COLOR_BIT : Nat := 1

def VK_IMAGE_ASPECT_DEPTH_BIT : Nat := 2

def VK_PIPELINE_STAGE_2_ALL_COMMANDS_BIT : Nat := 65536

def VK_PIPELINE_STAGE_2_COLOR_ATTACHMENT_OUTPUT_BIT_KHR : Nat := 1024

def VK_PIPELINE_STAGE_2_ALL_GRAPHICS_BIT_KHR : Nat := 32768

def VK_ACCESS_2_MEMORY_WRITE_BIT : Nat := 65536

def VK_ACCESS_2_MEMORY_READ_BIT : Nat := 32768

/-- `UINT64_MAX`: in the Vulkan API this value, passed as a wait timeout,
is the sentinel meaning that the wait never times out (an unbounded wait). -/
def UINT64_MAX : Nat := 2 ^ 64 - 1

namespace helpers

/-- From the engine translation unit:
`constexpr std::uint64_t FENCE_TIMEOUT_NS = 1000000000;` -/
def FENCE_TIMEOUT_NS : Nat := 1000000000

end helpers

/-! ## Structures recorded into command buffers -/

/-- Modelled from the spec: `vkinit::image_subresource_range(aspectMask)` is
declared in `vk_initializers.h`, which is not part of the provided sources.
Its only input is the aspect mask, so the produced subresource range is
modelled as carrying exactly that aspect mask (the full-image range covering
all mip levels and array layers is implicit). -/
structure VkImageSubresourceRange where
  aspectMask : Nat
deriving DecidableEq, Repr

def image_subresource_range (aspectMask : Nat) : VkImageSubresourceRange :=
  { aspectMask := aspectMask }

/-- The fields of `VkImageMemoryBarrier2` that `vkutil::transitionImage`
populates. -/
structure VkImageMemoryBarrier2 where
  srcStageMask : Nat
  srcAccessMask : Nat
  dstStageMask : Nat
  dstAccessMask : Nat
  oldLayout : Nat
  newLayout : Nat
  subresourceRange : VkImageSubresourceRange
  image : Nat
deriving DecidableEq, Repr

structure VkSemaphoreSubmitInfo where
  stageMask : Nat
  semaphore : Nat
deriving DecidableEq, Repr

/-- Modelled from the spec: `vkinit::semaphore_submit_info(stageMask, semaphore)`
lives in `vk_initializers.h`, absent from the provided sources; it packages its
two arguments into a `VkSemaphoreSubmitInfo`. -/
def semaphore_submit_info (stageMask semaphore : Nat) : VkSemaphoreSubmitInfo :=
  { stageMask := stageMask, semaphore := semaphore }

structure VkSubmitInfo2 where
  commandBuffer : Nat
  signalSemaphore : VkSemaphoreSubmitInfo
  waitSemaphore : VkSemaphoreSubmitInfo
deriving DecidableEq, Repr

/-- Modelled from the spec: `vkinit::submit_info(cmd, signalSemaphoreInfo,
waitSemaphoreInfo)` lives in `vk_initializers.h`, absent from the provided
sources. Per spec §4.4 step 4 and the call-site comments in `draw` ("We wait
on the present semaphore ... We then signal on the render semaphore"), the
second argument is the signal dependency and the third the wait dependency. -/
def submit_info (cmd : Nat) (signalInfo waitInfo : VkSemaphoreSubmitInfo) :
    VkSubmitInfo2 :=
  { commandBuffer := cmd, signalSemaphore := signalInfo, waitSemaphore := waitInfo }

structure VkPresentInfoKHR where
  swapchain : Nat
  waitSemaphore : Nat
  imageIndex : Nat
deriving DecidableEq, Repr

/-! ## The reified Vulkan/SDL call trace -/

/-- One observable call made by the engine, in program order. -/
inductive VkCall where
  | waitForFences (device fence : Nat) (waitAll : Bool) (timeoutNs : Nat)
  | resetFences (device fence : Nat)
  | acquireNextImageKHR (device swapchain : Nat) (timeoutNs : Nat)
      (signalSemaphore : Nat)
  | resetCommandBuffer (commandBuffer : Nat)
  | beginCommandBuffer (commandBuffer : Nat)
  | cmdPipelineBarrier2 (commandBuffer : Nat) (barrier : VkImageMemoryBarrier2)
  | cmdClearColorImage (commandBuffer image layout : Nat)
  | endCommandBuffer (commandBuffer : Nat)
  | queueSubmit2 (queue : Nat) (submit : VkSubmitInfo2) (fence : Nat)
  | queuePresentKHR (queue : Nat) (present : VkPresentInfoKHR)
  | deviceWaitIdle (device : Nat)
  | destroyCommandPool (device pool : Nat)
  | destroyFence (device fence : Nat)
  | destroySemaphore (device semaphore : Nat)
  | destroySwapchainKHR (device swapchain : Nat)
  | destroyImageView (device view : Nat)
  | destroySurfaceKHR (inst surface : Nat)
  | destroyDevice (device : Nat)
  | destroyDebugUtilsMessenger (inst messenger : Nat)
  | destroyInstance (inst : Nat)
  | destroyWindow (window : Nat)
  | sleepMilliseconds (ms : Nat)
deriving DecidableEq, Repr

namespace VkCall

/-- Resource-destruction calls (the `vkDestroy*` / `SDL_DestroyWindow`
family). -/
def isDestroyCall : VkCall → Bool
  | destroyCommandPool _ _ => true
  | destroyFence _ _ => true
  | destroySemaphore _ _ => true
  | destroySwapchainKHR _ _ => true
  | destroyImageView _ _ => true
  | destroySurfaceKHR _ _ => true
  | destroyDevice _ => true
  | destroyDebugUtilsMessenger _ _ => true
  | destroyInstance _ => true
  | destroyWindow _ => true
  | _ => false

/-- Calls that touch a GPU resource (everything except the pure CPU sleep). -/
def isGpuCall : VkCall → Bool
  | sleepMilliseconds _ => false
  | _ => true

/-- The timeout argument a call carries, when it has one: only the fence wait
and the swapchain acquire take a timeout in this engine. -/
def callTimeoutNs : VkCall → Option Nat
  | waitForFences _ _ _ t => some t
  | acquireNextImageKHR _ _ t _ => some t
  | _ => none

end VkCall

/-! ## vkutil::transitionImage (vk_images translation unit) -/

namespace vkutil

/-- The image memory barrier recorded by `vkutil::transitionImage`, field by
field as the source populates it. -/
def transitionImageBarrier (image currentLayout newLayout : Nat) :
    VkImageMemoryBarrier2 :=
  { srcStageMask := VK_PIPELINE_STAGE_2_ALL_COMMANDS_BIT
    srcAccessMask := VK_ACCESS_2_MEMORY_WRITE_BIT
    dstStageMask := VK_PIPELINE_STAGE_2_ALL_COMMANDS_BIT
    dstAccessMask := VK_ACCESS_2_MEMORY_WRITE_BIT + VK_ACCESS_2_MEMORY_READ_BIT
    oldLayout := currentLayout
    newLayout := newLayout
    subresourceRange := image_subresource_range
      (if newLayout ≠ VK_IMAGE_LAYOUT_DEPTH_ATTACHMENT_OPTIMAL then
        VK_IMAGE_ASPECT_COLOR_BIT
      else VK_IMAGE_ASPECT_DEPTH_BIT)
    image := image }

/-- `vkutil::transitionImage(commandBuffer, image, currentLayout, newLayout)`:
records one `vkCmdPipelineBarrier2` carrying the barrier above. -/
def transitionImage (commandBuffer image currentLayout newLayout : Nat) :
    VkCall :=
  .cmdPipelineBarrier2 commandBuffer
    (transitionImageBarrier image currentLayout newLayout)

end vkutil

/-! ## Engine state (`mnv::VulkanEngine` data members) -/

/-- `VulkanEngine::FrameData`: one Frame Slot. -/
structure FrameData where
  commandPool : Nat
  commandBuffer : Nat
  swapchainSemaphore : Nat
  renderFence : Nat
deriving DecidableEq, Repr

/-- `VulkanEngine::SwapchainImageData`: one Swapchain Image Registry entry. -/
structure SwapchainImageData where
  renderSemaphore : Nat
deriving DecidableEq, Repr

/-- The `mnv::VulkanEngine` data members used by the embedded operations. -/
structure VulkanEngine where
  _isInitialized : Bool
  _frameNumber : Nat
  _stopRendering : Bool
  _instance : Nat
  _debugMessenger : Nat
  _logicalDevice : Nat
  _surface : Nat
  _swapchain : Nat
  _swapchainImages : List Nat
  _swapchainImageViews : List Nat
  _frames : List FrameData
  _swapchainImageData : List SwapchainImageData
  _graphicsQueue : Nat
  _window : Nat
deriving DecidableEq, Repr

namespace VulkanEngine

/-- `getCurrentFrame() { return _frames[_frameNumber % _frames.size()]; }`
— pure indexing; `none` models the C++ undefined behaviour when `_frames`
is empty (modulo by zero). -/
def getCurrentFrame (e : VulkanEngine) : Option FrameData :=
  e._frames[e._frameNumber % e._frames.length]?

/-- `getSwapchainImageData(index)
{ return _swapchainImageData[index % _swapchainImageData.size()]; }` -/
def getSwapchainImageData (e : VulkanEngine) (index : Nat) :
    Option SwapchainImageData :=
  e._swapchainImageData[index % e._swapchainImageData.length]?

/-- The slot index `getCurrentFrame` reads: `_frameNumber % _frames.size()`. -/
def currentSlotIndex (e : VulkanEngine) : Nat :=
  e._frameNumber % e._frames.length

/-- `VulkanEngine::draw()`. The presentation layer's choice of next image is
the oracle argument `nextSwapchainImageIndex` (the value
`vkAcquireNextImageKHR` writes out). The result is the ordered trace of API
calls and the updated engine state; `none` models undefined behaviour
(indexing an empty pool, or an acquired index outside `_swapchainImages`). -/
def draw (e : VulkanEngine) (nextSwapchainImageIndex : Nat) :
    Option (List VkCall × VulkanEngine) := do
  let frame ← e.getCurrentFrame
  let imageData ← e.getSwapchainImageData nextSwapchainImageIndex
  let image ← e._swapchainImages[nextSwapchainImageIndex]?
  let commandBuffer := frame.commandBuffer
  let waitInfo := semaphore_submit_info
    VK_PIPELINE_STAGE_2_COLOR_ATTACHMENT_OUTPUT_BIT_KHR frame.swapchainSemaphore
  let signalInfo := semaphore_submit_info
    VK_PIPELINE_STAGE_2_ALL_GRAPHICS_BIT_KHR imageData.renderSemaphore
  let submitInfo := submit_info commandBuffer signalInfo waitInfo
  let presentInfo : VkPresentInfoKHR :=
    { swapchain := e._swapchain
      waitSemaphore := imageData.renderSemaphore
      imageIndex := nextSwapchainImageIndex }
  let trace : List VkCall :=
    [ .waitForFences e._logicalDevice frame.renderFence true UINT64_MAX
    , .resetFences e._logicalDevice frame.renderFence
    , .acquireNextImageKHR e._logicalDevice e._swapchain
        helpers.FENCE_TIMEOUT_NS frame.swapchainSemaphore
    , .resetCommandBuffer commandBuffer
    , .beginCommandBuffer commandBuffer
    , vkutil.transitionImage commandBuffer image
        VK_IMAGE_LAYOUT_UNDEFINED VK_IMAGE_LAYOUT_GENERAL
    , .cmdClearColorImage commandBuffer image VK_IMAGE_LAYOUT_GENERAL
    , vkutil.transitionImage commandBuffer image
        VK_IMAGE_LAYOUT_GENERAL VK_IMAGE_LAYOUT_PRESENT_SRC_KHR
    , .endCommandBuffer commandBuffer
    , .queueSubmit2 e._graphicsQueue submitInfo frame.renderFence
    , .queuePresentKHR e._graphicsQueue presentInfo ]
  pure (trace, { e with _frameNumber := e._frameNumber + 1 })

/-- Iterating `draw`: the state after `i` consecutive draw iterations, with
`acquires j` the image index the presentation layer returns at iteration `j`. -/
def drawIter (e : VulkanEngine) (acquires : Nat → Nat) : Nat → Option VulkanEngine
  | 0 => some e
  | i + 1 =>
    match drawIter e acquires i with
    | none => none
    | some e' => (e'.draw (acquires i)).map Prod.snd

/-- `VulkanEngine::destroySwapchain()`: destroy the swapchain handle, then
every image view. -/
def destroySwapchainTrace (e : VulkanEngine) : List VkCall :=
  .destroySwapchainKHR e._logicalDevice e._swapchain ::
    e._swapchainImageViews.map (fun v => .destroyImageView e._logicalDevice v)

/-- `VulkanEngine::cleanup()`: when `_isInitialized`, wait for device idle and
destroy every resource; in all cases reset the global engine pointer (a global
variable, not a data member — no data member changes, in particular
`_isInitialized` is left as it was). -/
def cleanup (e : VulkanEngine) : VulkanEngine × List VkCall :=
  if e._isInitialized then
    (e,
      .deviceWaitIdle e._logicalDevice ::
        ((e._frames.map (fun frame =>
            [ VkCall.destroyCommandPool e._logicalDevice frame.commandPool
            , VkCall.destroyFence e._logicalDevice frame.renderFence
            , VkCall.destroySemaphore e._logicalDevice frame.swapchainSemaphore
            ])).flatten ++
          e._swapchainImageData.map
            (fun imageData =>
              .destroySemaphore e._logicalDevice imageData.renderSemaphore) ++
          e.destroySwapchainTrace ++
          [ .destroySurfaceKHR e._instance e._surface
          , .destroyDevice e._logicalDevice
          , .destroyDebugUtilsMessenger e._instance e._debugMessenger
          , .destroyInstance e._instance
          , .destroyWindow e._window ]))
  else (e, [])

/-- `VulkanEngine::createSwapchain(width, height)`: the swapchain handle,
extent, images and views come from the external swapchain builder (oracle
arguments here); then `_frames.resize(2)` and
`_swapchainImageData.resize(_swapchainImages.size())`. `std::vector::resize`
value-initializes new elements, so the new slots carry null handles. -/
def createSwapchain (e : VulkanEngine) (swapchain : Nat)
    (images views : List Nat) : VulkanEngine :=
  { e with
    _swapchain := swapchain
    _swapchainImages := images
    _swapchainImageViews := views
    _frames := List.replicate 2
      { commandPool := 0, commandBuffer := 0
        swapchainSemaphore := 0, renderFence := 0 }
    _swapchainImageData := List.replicate images.length { renderSemaphore := 0 } }

end VulkanEngine

/-! ## The run loop (`VulkanEngine::run`) -/

/-- The SDL events the run loop inspects. -/
inductive SDLEvent where
  | quit
  | windowMinimized
  | windowRestored
  | other
deriving DecidableEq, Repr

/-- The inner `SDL_PollEvent` loop of `run`: fold the polled events over
`(engine, bQuit)`. `SDL_QUIT` sets `bQuit`; minimize/restore toggle
`_stopRendering`; nothing else changes. -/
def processEvents : VulkanEngine → Bool → List SDLEvent → VulkanEngine × Bool
  | e, bQuit, [] => (e, bQuit)
  | e, bQuit, ev :: rest =>
    match ev with
    | .quit => processEvents e true rest
    | .windowMinimized =>
      processEvents { e with _stopRendering := true } bQuit rest
    | .windowRestored =>
      processEvents { e with _stopRendering := false } bQuit rest
    | .other => processEvents e bQuit rest

/-- One iteration of the `while (!bQuit)` body of `run`: poll all pending
events, then either sleep 100 ms (when `_stopRendering`) or draw. Returns the
new engine state, the `bQuit` flag, and the tick's call trace. -/
def runTick (e : VulkanEngine) (events : List SDLEvent)
    (nextSwapchainImageIndex : Nat) :
    Option (VulkanEngine × Bool × List VkCall) :=
  let r := processEvents e false events
  if r.1._stopRendering then
    some (r.1, r.2, [.sleepMilliseconds 100])
  else
    (r.1.draw nextSwapchainImageIndex).map
      (fun p => (p.2, r.2, p.1))

/-! ## Vulkan fence-wait semantics -/

/-- Outcome of `vkWaitForFences(..., timeoutNs)` for a fence that becomes
signaled at `signalAtNs` (`none` = never signals). Per the Vulkan
specification, a timeout of `UINT64_MAX` means the wait never times out:
a never-signaling fence then blocks forever; with any smaller timeout the
call returns `VK_TIMEOUT` once the timeout expires. -/
inductive WaitOutcome where
  | success
  | timedOut
  | blocksForever
deriving DecidableEq, Repr

def fenceWaitOutcome (signalAtNs : Option Nat) (timeoutNs : Nat) : WaitOutcome :=
  match signalAtNs with
  | some t => if t ≤ timeoutNs ∨ timeoutNs = UINT64_MAX then .success else .timedOut
  | none => if timeoutNs = UINT64_MAX then .blocksForever else .timedOut

/-! ## Trace observations -/

/-- Semaphores passed as the signal dependency of a queue submission. -/
def submitSignalSemaphores (t : List VkCall) : List Nat :=
  t.filterMap fun c =>
    match c with
    | .queueSubmit2 _ submit _ => some submit.signalSemaphore.semaphore
    | _ => none

/-- Semaphores passed as the wait dependency of a queue submission. -/
def submitWaitSemaphores (t : List VkCall) : List Nat :=
  t.filterMap fun c =>
    match c with
    | .queueSubmit2 _ submit _ => some submit.waitSemaphore.semaphore
    | _ => none

/-- Semaphores a presentation request waits on. -/
def presentWaitSemaphores (t : List VkCall) : List Nat :=
  t.filterMap fun c =>
    match c with
    | .queuePresentKHR _ present => some present.waitSemaphore
    | _ => none

/-- Timeouts carried by fence waits in a trace. -/
def fenceWaitTimeouts (t : List VkCall) : List Nat :=
  t.filterMap fun c =>
    match c with
    | .waitForFences _ _ _ timeoutNs => some timeoutNs
    | _ => none

/-- Timeouts carried by swapchain acquires in a trace. -/
def acquireTimeouts (t : List VkCall) : List Nat :=
  t.filterMap fun c =>
    match c with
    | .acquireNextImageKHR _ _ timeoutNs _ => some timeoutNs
    | _ => none

/-! ## A concrete engine (N = 2 frame slots, 3 swapchain images) -/

/-- A fully initialized engine with two Frame Slots and three swapchain
images, all handles distinct — the spec's "image count ≠ N" scenario. -/
def sampleEngine : VulkanEngine :=
  { _isInitialized := true
    _frameNumber := 0
    _stopRendering := false
    _instance := 1
    _debugMessenger := 2
    _logicalDevice := 3
    _surface := 4
    _swapchain := 5
    _swapchainImages := [10, 11, 12]
    _swapchainImageViews := [20, 21, 22]
    _frames := [⟨30, 31, 32, 33⟩, ⟨40, 41, 42, 43⟩]
    _swapchainImageData := [⟨50⟩, ⟨51⟩, ⟨52⟩]
    _graphicsQueue := 6
    _window := 7 }

/-! ## Helper lemmas -/

lemma getElem?_mod_eq_some {α : Type} (l : List α) (n : Nat) (h : l ≠ []) :
    ∃ a, l[n % l.length]? = some a := by
  have hlen : 0 < l.length := List.length_pos.mpr h
  exact ⟨l.get ⟨n % l.length, Nat.mod_lt _ hlen⟩,
    List.getElem?_eq_getElem (Nat.mod_lt _ hlen)⟩

lemma getCurrentFrame_some (e : VulkanEngine) (h : e._frames ≠ []) :
    ∃ f, e.getCurrentFrame = some f :=
  getElem?_mod_eq_some e._frames e._frameNumber h

lemma getSwapchainImageData_some (e : VulkanEngine) (k : Nat)
    (h : e._swapchainImageData ≠ []) :
    ∃ d, e.getSwapchainImageData k = some d :=
  getElem?_mod_eq_some e._swapchainImageData k h

/-- Normal form of one draw iteration: given the three successful lookups, the
trace and the state update are explicit. -/
lemma draw_eq (e : VulkanEngine) (k : Nat) (f : FrameData)
    (d : SwapchainImageData) (image : Nat)
    (hf : e.getCurrentFrame = some f)
    (hd : e.getSwapchainImageData k = some d)
    (hi : e._swapchainImages[k]? = some image) :
    e.draw k = some
      ([ .waitForFences e._logicalDevice f.renderFence true UINT64_MAX
       , .resetFences e._logicalDevice f.renderFence
       , .acquireNextImageKHR e._logicalDevice e._swapchain
           helpers.FENCE_TIMEOUT_NS f.swapchainSemaphore
       , .resetCommandBuffer f.commandBuffer
       , .beginCommandBuffer f.commandBuffer
       , vkutil.transitionImage f.commandBuffer image
           VK_IMAGE_LAYOUT_UNDEFINED VK_IMAGE_LAYOUT_GENERAL
       , .cmdClearColorImage f.commandBuffer image VK_IMAGE_LAYOUT_GENERAL
       , vkutil.transitionImage f.commandBuffer image
           VK_IMAGE_LAYOUT_GENERAL VK_IMAGE_LAYOUT_PRESENT_SRC_KHR
       , .endCommandBuffer f.commandBuffer
       , .queueSubmit2 e._graphicsQueue
           (submit_info f.commandBuffer
             (semaphore_submit_info VK_PIPELINE_STAGE_2_ALL_GRAPHICS_BIT_KHR
               d.renderSemaphore)
             (semaphore_submit_info
               VK_PIPELINE_STAGE_2_COLOR_ATTACHMENT_OUTPUT_BIT_KHR
               f.swapchainSemaphore))
           f.renderFence
       , .queuePresentKHR e._graphicsQueue
           { swapchain := e._swapchain
             waitSemaphore := d.renderSemaphore
             imageIndex := k } ],
       { e with _frameNumber := e._frameNumber + 1 }) := by
  simp [VulkanEngine.draw, hf, hd, hi]

/-- A draw iteration succeeds on nonempty pools and an in-range acquired
index, and changes only `_frameNumber`, by one. -/
lemma draw_some (e : VulkanEngine) (k : Nat)
    (hf : e._frames ≠ []) (hs : e._swapchainImageData ≠ [])
    (hi : k < e._swapchainImages.length) :
    ∃ t, e.draw k = some (t, { e with _frameNumber := e._frameNumber + 1 }) := by
  obtain ⟨f, hf'⟩ := getCurrentFrame_some e hf
  obtain ⟨d, hd'⟩ := getSwapchainImageData_some e k hs
  exact ⟨_, draw_eq e k f d _ hf' hd' (List.getElem?_eq_getElem hi)⟩

/-- After `i` draw iterations the engine state is the initial one with the
frame counter advanced by `i` — no other field changes, and the counter
itself is never reduced modulo anything. -/
lemma drawIter_eq (e : VulkanEngine) (acquires : Nat → Nat)
    (hf : e._frames ≠ []) (hs : e._swapchainImageData ≠ [])
    (hacq : ∀ j, acquires j < e._swapchainImages.length) :
    ∀ i, VulkanEngine.drawIter e acquires i =
      some { e with _frameNumber := e._frameNumber + i } := by
  intro i
  induction i with
  | zero => simp [VulkanEngine.drawIter]
  | succ i ih =>
    obtain ⟨t, ht⟩ := draw_some { e with _frameNumber := e._frameNumber + i }
      (acquires i) hf hs (hacq i)
    simp only [VulkanEngine.drawIter, ih, ht, Option.map_some]
    rfl

/-- The event-polling loop changes only `_stopRendering` (and the local
`bQuit`): every other engine field survives unchanged. -/
lemma processEvents_state (evs : List SDLEvent) :
    ∀ (e : VulkanEngine) (b : Bool),
      (processEvents e b evs).1 =
        { e with _stopRendering := (processEvents e b evs).1._stopRendering } := by
  induction evs with
  | nil => intro e b; rfl
  | cons ev rest ih =>
    intro e b
    cases ev <;> simp only [processEvents] <;> rw [ih]

lemma getElem?_mod_isSome {α : Type} (l : List α) (n : Nat) :
    (l[n % l.length]?).isSome ↔ l ≠ [] := by
  constructor
  · intro h hnil
    subst hnil
    simp at h
  · intro h
    obtain ⟨a, ha⟩ := getElem?_mod_eq_some l n h
    simp [ha]

/-! ## Claims -/

/-- C8: for every call to `transitionImage(commandBuffer, image, oldLayout,
newLayout)`, the recorded barrier's subresource aspect mask is the depth
aspect if and only if `newLayout` is the depth-attachment-optimal layout, and
the color aspect for every other `newLayout`, regardless of `oldLayout`. -/
theorem C8_transition_aspect_mask
    (commandBuffer image oldLayout newLayout : Nat) :
    ∃ barrier,
      vkutil.transitionImage commandBuffer image oldLayout newLayout =
        .cmdPipelineBarrier2 commandBuffer barrier ∧
      barrier.oldLayout = oldLayout ∧
      barrier.newLayout = newLayout ∧
      (barrier.subresourceRange.aspectMask = VK_IMAGE_ASPECT_DEPTH_BIT ↔
        newLayout = VK_IMAGE_LAYOUT_DEPTH_ATTACHMENT_OPTIMAL) ∧
      (newLayout ≠ VK_IMAGE_LAYOUT_DEPTH_ATTACHMENT_OPTIMAL →
        barrier.subresourceRange.aspectMask = VK_IMAGE_ASPECT_COLOR_BIT) := by
  refine ⟨_, rfl, rfl, rfl, ?_, ?_⟩
  · by_cases h : newLayout = VK_IMAGE_LAYOUT_DEPTH_ATTACHMENT_OPTIMAL <;>
      simp [vkutil.transitionImageBarrier, image_subresource_range, h,
        VK_IMAGE_ASPECT_DEPTH_BIT, VK_IMAGE_ASPECT_COLOR_BIT]
  · intro h
    simp [vkutil.transitionImageBarrier, image_subresource_range, h]

/-- C8 witness: a color-target transition (`UNDEFINED → GENERAL`, as recorded
by `draw`) gets the color aspect. -/
theorem C8_transition_aspect_mask_witness :
    ∃ barrier,
      vkutil.transitionImage 31 10 VK_IMAGE_LAYOUT_UNDEFINED
          VK_IMAGE_LAYOUT_GENERAL =
        .cmdPipelineBarrier2 31 barrier ∧
      barrier.subresourceRange.aspectMask = VK_IMAGE_ASPECT_COLOR_BIT := by
  obtain ⟨barrier, h1, _, _, _, h5⟩ :=
    C8_transition_aspect_mask 31 10 VK_IMAGE_LAYOUT_UNDEFINED
      VK_IMAGE_LAYOUT_GENERAL
  exact ⟨barrier, h1, h5 (by decide)⟩

/-- C10: `getCurrentFrame` and `getSwapchainImageData` are defined exactly
when the corresponding pool is non-empty (an empty pool makes the index a
modulo by zero, modelled as `none`), and after `createSwapchain` has resized
the pools both accessors are defined. -/
theorem C10_accessors_need_nonempty_pools (e : VulkanEngine)
    (index swapchain : Nat) (images views : List Nat) (himg : images ≠ []) :
    (e.getCurrentFrame.isSome ↔ e._frames ≠ []) ∧
    ((e.getSwapchainImageData index).isSome ↔ e._swapchainImageData ≠ []) ∧
    (e.createSwapchain swapchain images views).getCurrentFrame.isSome ∧
    ((e.createSwapchain swapchain images views).getSwapchainImageData
      index).isSome := by
  refine ⟨getElem?_mod_isSome _ _, getElem?_mod_isSome _ _, ?_, ?_⟩
  · exact (getElem?_mod_isSome _ _).mpr
      (by simp [VulkanEngine.createSwapchain])
  · refine (getElem?_mod_isSome _ _).mpr ?_
    have : (e.createSwapchain swapchain images views)._swapchainImageData.length
        = images.length := by
      simp [VulkanEngine.createSwapchain]
    intro hnil
    rw [hnil] at this
    exact himg (List.length_eq_zero.mp this.symm)

/-- C10 witness: on an engine with empty pools both accessors are undefined;
after `createSwapchain` with three images both are defined. -/
theorem C10_accessors_need_nonempty_pools_witness :
    ((({ sampleEngine with _frames := [], _swapchainImageData := []
        } : VulkanEngine).getCurrentFrame).isSome ↔
      ({ sampleEngine with _frames := [], _swapchainImageData := []
        } : VulkanEngine)._frames ≠ []) ∧
    ((({ sampleEngine with _frames := [], _swapchainImageData := []
        } : VulkanEngine).createSwapchain 5 [10, 11, 12]
          [20, 21, 22]).getCurrentFrame).isSome := by
  obtain ⟨h1, _, h3, _⟩ :=
    C10_accessors_need_nonempty_pools
      { sampleEngine with _frames := [], _swapchainImageData := [] }
      0 5 [10, 11, 12] [20, 21, 22] (by decide)
  exact ⟨h1, h3⟩

/-- C6: when the engine is initialized, the teardown trace begins with the
device-idle wait, and every destroy call in it occurs strictly after that
wait. -/
theorem C6_device_idle_before_destroys (e : VulkanEngine)
    (h : e._isInitialized = true) :
    ((VulkanEngine.cleanup e).2)[0]? =
      some (.deviceWaitIdle e._logicalDevice) ∧
    ∀ i c, ((VulkanEngine.cleanup e).2)[i]? = some c →
      c.isDestroyCall = true → 0 < i := by
  constructor
  · simp [VulkanEngine.cleanup, h]
  · intro i c hc hd
    cases i with
    | zero =>
      simp [VulkanEngine.cleanup, h] at hc
      rw [← hc] at hd
      simp [VkCall.isDestroyCall] at hd
    | succ i => exact Nat.succ_pos i

/-- C6 witness: the concrete engine's teardown starts with the device-idle
wait and destroys only afterwards. -/
theorem C6_device_idle_before_destroys_witness :
    ((VulkanEngine.cleanup sampleEngine).2)[0]? =
      some (.deviceWaitIdle 3) ∧
    ∀ i c, ((VulkanEngine.cleanup sampleEngine).2)[i]? = some c →
      c.isDestroyCall = true → 0 < i :=
  C6_device_idle_before_destroys sampleEngine rfl

/-- C7 (code bug in `cleanup`): `_isInitialized` is never cleared, so calling
`cleanup` a second time after a clean shutdown re-enters the guarded block and
re-executes every destroy on already-destroyed handles — it is not
idempotent-safe. -/
theorem C7_second_cleanup_redestroys :
    (VulkanEngine.cleanup sampleEngine).1._isInitialized = true ∧
    (VulkanEngine.cleanup (VulkanEngine.cleanup sampleEngine).1).2 =
      (VulkanEngine.cleanup sampleEngine).2 ∧
    VkCall.destroyFence 3 33 ∈
      (VulkanEngine.cleanup (VulkanEngine.cleanup sampleEngine).1).2 ∧
    (VkCall.destroyFence 3 33).isDestroyCall = true := by
  refine ⟨rfl, rfl, ?_, rfl⟩
  decide

/-- C1: in every draw iteration the render-complete semaphore used as the
submit signal dependency and as the present wait dependency is the Swapchain
Image Registry entry `getSwapchainImageData(nextSwapchainImageIndex)` (which
indexes at the acquired index modulo the image count) — and it is independent
of the frame number, hence never keyed by the Frame Slot index; this holds
for every acquired index, in particular when the image count differs from the
frame slot count. -/
theorem C1_render_complete_keyed_by_image_index (e : VulkanEngine) (k : Nat)
    (hf : e._frames ≠ []) (hs : e._swapchainImageData ≠ [])
    (hi : k < e._swapchainImages.length) :
    ∃ t e' d,
      e.draw k = some (t, e') ∧
      e.getSwapchainImageData k = some d ∧
      e._swapchainImageData[k % e._swapchainImageData.length]? = some d ∧
      submitSignalSemaphores t = [d.renderSemaphore] ∧
      presentWaitSemaphores t = [d.renderSemaphore] ∧
      ∀ n, ∃ t2 e2,
        VulkanEngine.draw { e with _frameNumber := n } k = some (t2, e2) ∧
        submitSignalSemaphores t2 = [d.renderSemaphore] ∧
        presentWaitSemaphores t2 = [d.renderSemaphore] := by
  obtain ⟨f, hf'⟩ := getCurrentFrame_some e hf
  obtain ⟨d, hd'⟩ := getSwapchainImageData_some e k hs
  have himg := List.getElem?_eq_getElem hi
  refine ⟨_, _, d, draw_eq e k f d _ hf' hd' himg, hd', hd', rfl, rfl, ?_⟩
  intro n
  obtain ⟨f2, hf2⟩ :=
    getCurrentFrame_some { e with _frameNumber := n } hf
  exact ⟨_, _, draw_eq { e with _frameNumber := n } k f2 d _ hf2 hd' himg,
    rfl, rfl⟩

/-- C1 witness: N = 2 frame slots, 3 swapchain images, acquired index 2 —
the semaphore is registry entry 2 (handle 52), for any frame number. -/
theorem C1_render_complete_keyed_by_image_index_witness :
    ∃ t e' d,
      sampleEngine.draw 2 = some (t, e') ∧
      sampleEngine.getSwapchainImageData 2 = some d ∧
      sampleEngine._swapchainImageData[2 % 3]? = some d ∧
      submitSignalSemaphores t = [d.renderSemaphore] ∧
      presentWaitSemaphores t = [d.renderSemaphore] ∧
      ∀ n, ∃ t2 e2,
        VulkanEngine.draw { sampleEngine with _frameNumber := n } 2 =
          some (t2, e2) ∧
        submitSignalSemaphores t2 = [d.renderSemaphore] ∧
        presentWaitSemaphores t2 = [d.renderSemaphore] :=
  C1_render_complete_keyed_by_image_index sampleEngine 2
    (by decide) (by decide) (by decide)

/-- C2: starting from frame number 0, the slot used at iteration `i` is
`i mod N` (pure indexing through `getCurrentFrame`), and the sequence is
periodic with period `N` — round-robin over every run, in particular over
any `3 * N` consecutive iterations. -/
theorem C2_slot_round_robin (e : VulkanEngine) (acquires : Nat → Nat)
    (h0 : e._frameNumber = 0)
    (hf : e._frames ≠ []) (hs : e._swapchainImageData ≠ [])
    (hacq : ∀ j, acquires j < e._swapchainImages.length) (i : Nat) :
    ∃ ei eiN,
      VulkanEngine.drawIter e acquires i = some ei ∧
      VulkanEngine.drawIter e acquires (i + e._frames.length) = some eiN ∧
      ei.currentSlotIndex = i % e._frames.length ∧
      ei.getCurrentFrame = e._frames[i % e._frames.length]? ∧
      eiN.currentSlotIndex = ei.currentSlotIndex := by
  refine ⟨_, _, drawIter_eq e acquires hf hs hacq i,
    drawIter_eq e acquires hf hs hacq (i + e._frames.length), ?_, ?_, ?_⟩
  · simp [VulkanEngine.currentSlotIndex, h0]
  · simp [VulkanEngine.getCurrentFrame, h0]
  · simp [VulkanEngine.currentSlotIndex, h0, Nat.add_mod_right]

/-- C2 witness: N = 2; at iteration 4 the slot is `4 mod 2 = 0` and iteration
`4 + 2 = 6` uses the same slot (covering the 3·N = 6 iteration run). -/
theorem C2_slot_round_robin_witness :
    ∃ e4 e6,
      VulkanEngine.drawIter sampleEngine (fun _ => 0) 4 = some e4 ∧
      VulkanEngine.drawIter sampleEngine (fun _ => 0) 6 = some e6 ∧
      e4.currentSlotIndex = 4 % 2 ∧
      e4.getCurrentFrame = sampleEngine._frames[4 % 2]? ∧
      e6.currentSlotIndex = e4.currentSlotIndex :=
  C2_slot_round_robin sampleEngine (fun _ => 0) rfl (by decide) (by decide)
    (fun _ => by simp [sampleEngine]) 4

/-- C9: the frame counter advances by exactly one at the end of each
(non-paused) draw iteration and is strictly monotone across iterations; the
counter itself is never wrapped — after `i` iterations it is the initial
value plus `i` — and the modulo happens only in the slot selection. -/
theorem C9_frame_counter_monotone (e : VulkanEngine) (acquires : Nat → Nat)
    (hf : e._frames ≠ []) (hs : e._swapchainImageData ≠ [])
    (hacq : ∀ j, acquires j < e._swapchainImages.length) (i j : Nat)
    (hij : i < j) :
    ∃ ei ej t ei1,
      VulkanEngine.drawIter e acquires i = some ei ∧
      VulkanEngine.drawIter e acquires j = some ej ∧
      ei._frameNumber = e._frameNumber + i ∧
      ej._frameNumber = e._frameNumber + j ∧
      ei._frameNumber < ej._frameNumber ∧
      ei.draw (acquires i) = some (t, ei1) ∧
      ei1._frameNumber = ei._frameNumber + 1 ∧
      ei.currentSlotIndex = ei._frameNumber % ei._frames.length := by
  obtain ⟨t, ht⟩ := draw_some { e with _frameNumber := e._frameNumber + i }
    (acquires i) hf hs (hacq i)
  refine ⟨_, _, t, _, drawIter_eq e acquires hf hs hacq i,
    drawIter_eq e acquires hf hs hacq j, rfl, rfl,
    Nat.add_lt_add_left hij e._frameNumber, ht, rfl, rfl⟩

/-- C9 witness: at the concrete engine, iterations 0 and 5 have counters 0
and 5, with each draw advancing the counter by exactly one. -/
theorem C9_frame_counter_monotone_witness :
    ∃ ei ej t ei1,
      VulkanEngine.drawIter sampleEngine (fun _ => 1) 0 = some ei ∧
      VulkanEngine.drawIter sampleEngine (fun _ => 1) 5 = some ej ∧
      ei._frameNumber = sampleEngine._frameNumber + 0 ∧
      ej._frameNumber = sampleEngine._frameNumber + 5 ∧
      ei._frameNumber < ej._frameNumber ∧
      ei.draw 1 = some (t, ei1) ∧
      ei1._frameNumber = ei._frameNumber + 1 ∧
      ei.currentSlotIndex = ei._frameNumber % ei._frames.length :=
  C9_frame_counter_monotone sampleEngine (fun _ => 1) (by decide) (by decide)
    (fun _ => by simp [sampleEngine]) 0 5 (by decide)

/-- C3 counterexample: at the concrete engine, the wait-for-slot fence wait
carries `UINT64_MAX` — the Vulkan unbounded-wait sentinel, not the engine's
finite timeout constant — so a fence that never signals blocks forever and
no timeout expiry ever occurs to be surfaced. -/
theorem C3_counterexample :
    ∃ t e',
      sampleEngine.draw 0 = some (t, e') ∧
      fenceWaitTimeouts t = [UINT64_MAX] ∧
      fenceWaitTimeouts t ≠ [helpers.FENCE_TIMEOUT_NS] ∧
      fenceWaitOutcome none UINT64_MAX = .blocksForever ∧
      fenceWaitOutcome none UINT64_MAX ≠ .timedOut := by
  refine ⟨_, _, rfl, rfl, by decide, by decide, by decide⟩

/-- C3 (amended): the wait-for-slot step blocks on the current slot's
completion fence with timeout `UINT64_MAX`, the Vulkan unbounded-wait
sentinel — the wait cannot expire and a never-signaling fence blocks forever;
the finite `FENCE_TIMEOUT_NS` (1 s) constant is instead passed as the acquire
call's timeout. -/
theorem C3_fence_wait_is_unbounded (e : VulkanEngine) (k : Nat)
    (hf : e._frames ≠ []) (hs : e._swapchainImageData ≠ [])
    (hi : k < e._swapchainImages.length) :
    ∃ t e',
      e.draw k = some (t, e') ∧
      fenceWaitTimeouts t = [UINT64_MAX] ∧
      acquireTimeouts t = [helpers.FENCE_TIMEOUT_NS] ∧
      fenceWaitOutcome none UINT64_MAX = .blocksForever ∧
      ∀ signalAtNs, fenceWaitOutcome (some signalAtNs) UINT64_MAX = .success := by
  obtain ⟨f, hf'⟩ := getCurrentFrame_some e hf
  obtain ⟨d, hd'⟩ := getSwapchainImageData_some e k hs
  refine ⟨_, _, draw_eq e k f d _ hf' hd' (List.getElem?_eq_getElem hi),
    rfl, rfl, by decide, ?_⟩
  intro signalAtNs
  simp [fenceWaitOutcome]

/-- C3 witness: the amended statement evaluated at the concrete engine with
acquired index 1. -/
theorem C3_fence_wait_is_unbounded_witness :
    ∃ t e',
      sampleEngine.draw 1 = some (t, e') ∧
      fenceWaitTimeouts t = [UINT64_MAX] ∧
      acquireTimeouts t = [helpers.FENCE_TIMEOUT_NS] ∧
      fenceWaitOutcome none UINT64_MAX = .blocksForever ∧
      ∀ signalAtNs, fenceWaitOutcome (some signalAtNs) UINT64_MAX = .success :=
  C3_fence_wait_is_unbounded sampleEngine 1 (by decide) (by decide) (by decide)

/-- C5 counterexample: at the concrete engine, the acquire call in step 2
does carry a timeout of its own — the finite `FENCE_TIMEOUT_NS` (1 s), not
the unbounded sentinel — and its expiry is a distinct outcome; so the fence
wait in step 1 is not the only operation carrying a timeout. -/
theorem C5_counterexample :
    ∃ t e',
      sampleEngine.draw 0 = some (t, e') ∧
      acquireTimeouts t = [helpers.FENCE_TIMEOUT_NS] ∧
      helpers.FENCE_TIMEOUT_NS ≠ UINT64_MAX ∧
      fenceWaitOutcome none helpers.FENCE_TIMEOUT_NS = .timedOut ∧
      t.filterMap VkCall.callTimeoutNs ≠ [UINT64_MAX] := by
  refine ⟨_, _, rfl, rfl, by decide, by decide, by decide⟩

/-- C5 (amended): exactly two calls of the per-frame protocol carry a timeout
argument — the fence wait in step 1 carries `UINT64_MAX`, the unbounded-wait
sentinel that cannot expire, and the acquire in step 2 carries the only
finite, expirable timeout, `FENCE_TIMEOUT_NS` (1 s). -/
theorem C5_acquire_carries_the_finite_timeout (e : VulkanEngine) (k : Nat)
    (hf : e._frames ≠ []) (hs : e._swapchainImageData ≠ [])
    (hi : k < e._swapchainImages.length) :
    ∃ t e',
      e.draw k = some (t, e') ∧
      t.filterMap VkCall.callTimeoutNs =
        [UINT64_MAX, helpers.FENCE_TIMEOUT_NS] ∧
      fenceWaitTimeouts t = [UINT64_MAX] ∧
      acquireTimeouts t = [helpers.FENCE_TIMEOUT_NS] ∧
      helpers.FENCE_TIMEOUT_NS ≠ UINT64_MAX := by
  obtain ⟨f, hf'⟩ := getCurrentFrame_some e hf
  obtain ⟨d, hd'⟩ := getSwapchainImageData_some e k hs
  exact ⟨_, _, draw_eq e k f d _ hf' hd' (List.getElem?_eq_getElem hi),
    rfl, rfl, rfl, by decide⟩

/-- C5 witness: the amended statement evaluated at the concrete engine with
acquired index 2. -/
theorem C5_acquire_carries_the_finite_timeout_witness :
    ∃ t e',
      sampleEngine.draw 2 = some (t, e') ∧
      t.filterMap VkCall.callTimeoutNs =
        [UINT64_MAX, helpers.FENCE_TIMEOUT_NS] ∧
      fenceWaitTimeouts t = [UINT64_MAX] ∧
      acquireTimeouts t = [helpers.FENCE_TIMEOUT_NS] ∧
      helpers.FENCE_TIMEOUT_NS ≠ UINT64_MAX :=
  C5_acquire_carries_the_finite_timeout sampleEngine 2 (by decide) (by decide)
    (by decide)

lemma processEvents_frameNumber (e : VulkanEngine) (b : Bool)
    (evs : List SDLEvent) :
    (processEvents e b evs).1._frameNumber = e._frameNumber := by
  rw [processEvents_state]

lemma processEvents_frames (e : VulkanEngine) (b : Bool)
    (evs : List SDLEvent) :
    (processEvents e b evs).1._frames = e._frames := by
  rw [processEvents_state]

lemma processEvents_swapchainImages (e : VulkanEngine) (b : Bool)
    (evs : List SDLEvent) :
    (processEvents e b evs).1._swapchainImages = e._swapchainImages := by
  rw [processEvents_state]

lemma processEvents_swapchainImageData (e : VulkanEngine) (b : Bool)
    (evs : List SDLEvent) :
    (processEvents e b evs).1._swapchainImageData = e._swapchainImageData := by
  rw [processEvents_state]

lemma processEvents_swapchain (e : VulkanEngine) (b : Bool)
    (evs : List SDLEvent) :
    (processEvents e b evs).1._swapchain = e._swapchain := by
  rw [processEvents_state]

/-- C4: on a loop tick whose polled events leave `_stopRendering` set, the
tick performs only a 100 ms sleep — no GPU call, no frame-counter advance, no
change to any resource pool — and once a later tick's events clear the flag,
that tick's draw starts from exactly the frame index that was pending when
pausing began (and advances it by one). -/
theorem C4_paused_tick_is_inert (e : VulkanEngine)
    (events events2 : List SDLEvent) (k : Nat)
    (hf : e._frames ≠ []) (hs : e._swapchainImageData ≠ [])
    (hi : k < e._swapchainImages.length)
    (hp : (processEvents e false events).1._stopRendering = true)
    (hr : (processEvents (processEvents e false events).1 false
      events2).1._stopRendering = false) :
    ∃ e1 q1,
      runTick e events k = some (e1, q1, [.sleepMilliseconds 100]) ∧
      (∀ c, c ∈ [VkCall.sleepMilliseconds 100] → c.isGpuCall = false) ∧
      e1._frameNumber = e._frameNumber ∧
      e1._frames = e._frames ∧
      e1._swapchainImages = e._swapchainImages ∧
      e1._swapchainImageData = e._swapchainImageData ∧
      e1._swapchain = e._swapchain ∧
      ∃ e2 q2 t2,
        runTick e1 events2 k = some (e2, q2, t2) ∧
        e2._frameNumber = e._frameNumber + 1 ∧
        (processEvents e1 false events2).1.currentSlotIndex =
          e._frameNumber % e._frames.length := by
  have hn2 : (processEvents (processEvents e false events).1 false
      events2).1._frameNumber = e._frameNumber := by
    rw [processEvents_frameNumber, processEvents_frameNumber]
  have hf2 : (processEvents (processEvents e false events).1 false
      events2).1._frames = e._frames := by
    rw [processEvents_frames, processEvents_frames]
  have hs2 : (processEvents (processEvents e false events).1 false
      events2).1._swapchainImageData = e._swapchainImageData := by
    rw [processEvents_swapchainImageData, processEvents_swapchainImageData]
  have hi2 : (processEvents (processEvents e false events).1 false
      events2).1._swapchainImages = e._swapchainImages := by
    rw [processEvents_swapchainImages, processEvents_swapchainImages]
  obtain ⟨t2, ht2⟩ := draw_some
    (processEvents (processEvents e false events).1 false events2).1 k
    (by rw [hf2]; exact hf) (by rw [hs2]; exact hs) (by rw [hi2]; exact hi)
  refine ⟨(processEvents e false events).1, (processEvents e false events).2,
    by simp [runTick, hp], ?_, processEvents_frameNumber e false events,
    processEvents_frames e false events,
    processEvents_swapchainImages e false events,
    processEvents_swapchainImageData e false events,
    processEvents_swapchain e false events, ?_⟩
  · intro c hc
    simp only [List.mem_singleton] at hc
    subst hc
    rfl
  · refine ⟨{ (processEvents (processEvents e false events).1 false
        events2).1 with
      _frameNumber := (processEvents (processEvents e false events).1 false
        events2).1._frameNumber + 1 },
      (processEvents (processEvents e false events).1 false
        events2).2, t2, by simp [runTick, hr, ht2], by simp [hn2], ?_⟩
    simp [VulkanEngine.currentSlotIndex, hn2, hf2]

/-- C4 witness: minimize then restore on the concrete engine — the paused
tick is a bare sleep, the resumed tick draws the pending frame 0 and advances
the counter to 1. -/
theorem C4_paused_tick_is_inert_witness :
    ∃ e1 q1,
      runTick sampleEngine [.windowMinimized] 0 =
        some (e1, q1, [.sleepMilliseconds 100]) ∧
      (∀ c, c ∈ [VkCall.sleepMilliseconds 100] → c.isGpuCall = false) ∧
      e1._frameNumber = sampleEngine._frameNumber ∧
      e1._frames = sampleEngine._frames ∧
      e1._swapchainImages = sampleEngine._swapchainImages ∧
      e1._swapchainImageData = sampleEngine._swapchainImageData ∧
      e1._swapchain = sampleEngine._swapchain ∧
      ∃ e2 q2 t2,
        runTick e1 [.windowRestored] 0 = some (e2, q2, t2) ∧
        e2._frameNumber = sampleEngine._frameNumber + 1 ∧
        (processEvents e1 false [.windowRestored]).1.currentSlotIndex =
          sampleEngine._frameNumber % sampleEngine._frames.length :=
  C4_paused_tick_is_inert sampleEngine [.windowMinimized] [.windowRestored] 0
    (by decide) (by decide) (by decide) (by decide) (by decide)

end Minerva
